import Mathlib

/-!
Verification development for the tagline-generator routes: a deterministic
template-based generator and an OpenAI-backed adapter. Strings are embedded
as Lean strings (sequences of chars, matching UTF-16 code units on the BMP),
JavaScript 32-bit integer operations as Nat arithmetic modulo 2 to the 32,
and the provider call of the external adapter as an explicit oracle
parameter together with a trace of the models that were called.
-/

namespace TG

/-- The JavaScript whitespace class used by regex s-escapes and by trim:
space, tab, LF, VT, FF, CR, NBSP, and the Unicode space separators. -/
def jsWs (c : Char) : Bool :=
  (c.toNat == 32) || (c.toNat == 9) || (c.toNat == 10) || (c.toNat == 11) ||
  (c.toNat == 12) || (c.toNat == 13) || (c.toNat == 160) || (c.toNat == 5760) ||
  (decide (8192 ≤ c.toNat) && decide (c.toNat ≤ 8202)) ||
  (c.toNat == 8232) || (c.toNat == 8233) || (c.toNat == 8239) ||
  (c.toNat == 8287) || (c.toNat == 12288) || (c.toNat == 65279)

/-- Drop leading JavaScript whitespace, as trimStart does. -/
def trimStartL (l : List Char) : List Char := l.dropWhile jsWs

/-- Drop trailing JavaScript whitespace, as trimEnd does. -/
def trimEndL (l : List Char) : List Char := (l.reverse.dropWhile jsWs).reverse

/-- Drop whitespace at both ends, as the JavaScript trim method does. -/
def trimL (l : List Char) : List Char := trimEndL (trimStartL l)

/-- String form of trim. -/
def jsTrimS (s : String) : String := String.mk (trimL s.data)

/-- Replace each maximal run of whitespace by a single space; the flag
records whether the previous character belonged to a whitespace run.
Embeds the global regex replacement of whitespace runs by one space. -/
def collapseWsAux : List Char → Bool → List Char
  | [], _ => []
  | c :: rest, prevWs =>
    if jsWs c then
      (if prevWs then collapseWsAux rest true else ' ' :: collapseWsAux rest true)
    else c :: collapseWsAux rest false

/-- Collapse whitespace runs to single spaces. -/
def collapseWs (l : List Char) : List Char := collapseWsAux l false

/-- Split on single space characters, as the JavaScript split on a one-space
separator does: the empty list of chars yields one empty field. -/
def splitSpaceAux : List Char → List Char → List (List Char)
  | [], cur => [cur.reverse]
  | c :: rest, cur =>
    if c = ' ' then cur.reverse :: splitSpaceAux rest []
    else splitSpaceAux rest (c :: cur)

/-- Split a char list on spaces. -/
def splitSpace (l : List Char) : List (List Char) := splitSpaceAux l []

/-- Join word fragments with single spaces, as join with a one-space
separator does. -/
def joinSpace (ws : List (List Char)) : List Char := List.intercalate [' '] ws

/-- JavaScript slice from index 0 to index e, where a negative e counts from
the end of the string and the result is clamped to the available length. -/
def jsSliceTo (l : List Char) (e : Int) : List Char :=
  if e < 0 then l.take (l.length - (-e).toNat)
  else l.take (min e.toNat l.length)

/-- The character clamp of both routes: a string within the bound is kept,
otherwise the slice up to max minus 3 is taken, trailing whitespace removed,
and a three-character ellipsis marker appended. -/
def clamp (value : String) (mx : Nat) : String :=
  if value.length ≤ mx then value
  else String.mk (trimEndL (jsSliceTo value.data ((mx : Int) - 3))) ++ "..."

/-- The word clamp of the deterministic route: normalize whitespace, split
into words, and if there are more than the allowed number of words keep the
first ones joined by spaces; otherwise return the original value. -/
def clampWords (value : String) (maxWords : Nat) : String :=
  let words := splitSpace (trimL (collapseWs value.data))
  if words.length ≤ maxWords then value
  else String.mk (joinSpace (words.take maxWords))

/-- The seed hash of the deterministic route: the left fold summing the
character codes, with a zero sum replaced by one. -/
def hashSeed (s : String) : Nat :=
  let sum := s.data.foldl (fun acc c => acc + c.toNat) 0
  if sum = 0 then 1 else sum

/-- Two to the thirty-second power, the modulus of the 32-bit mixing. -/
def U32 : Nat := 4294967296

/-- One output of the seeded generator of the deterministic route, as the
numerator over U32 of the produced value: the state is first advanced by the
mixing constant by the caller; here the advanced state is mixed by the
imul-xorshift steps, every 32-bit coercion made explicit as a remainder. -/
def rngMix (t : Nat) : Nat :=
  let x0 := t % U32
  let x1 := ((x0 ^^^ (x0 >>> 15)) * (x0 ||| 1)) % U32
  let m := ((x1 ^^^ (x1 >>> 7)) * (x1 ||| 61)) % U32
  let x2 := x1 ^^^ ((x1 + m) % U32)
  x2 ^^^ (x2 >>> 14)

/-- One step of the closure returned by createRng: add the mixing constant
to the state and produce the mixed numerator together with the new state. -/
def rngNext (t : Nat) : Nat × Nat :=
  (t + 0x6d2b79f5, rngMix (t + 0x6d2b79f5))

/-- The tones of the form, in source order. -/
inductive Tone where
  | Professional
  | Playful
  | Premium
  | Bold
deriving DecidableEq

/-- The audiences of the form, in source order. -/
inductive Audience where
  | General
  | Motorsport
  | Finance
  | Developers
deriving DecidableEq

/-- The string carried by each tone value in the source, where a tone is a
string literal type. -/
def Tone.str : Tone → String
  | .Professional => "Professional"
  | .Playful => "Playful"
  | .Premium => "Premium"
  | .Bold => "Bold"

/-- The string carried by each audience value in the source. -/
def Audience.str : Audience → String
  | .General => "General"
  | .Motorsport => "Motorsport fans"
  | .Finance => "Finance/banking"
  | .Developers => "Developers"

/-- The modifier word bank, indexed by tone. -/
def toneModifiers : Tone → List String
  | .Professional => ["precise", "focused", "clear", "trusted"]
  | .Playful => ["bright", "fun", "lively", "sparked"]
  | .Premium => ["refined", "elevated", "polished", "lux"]
  | .Bold => ["fearless", "powerful", "unmistakable", "fast"]

/-- The verb word bank, indexed by tone. -/
def toneVerbs : Tone → List String
  | .Professional => ["deliver", "align", "streamline", "build"]
  | .Playful => ["ignite", "spark", "flip", "charge"]
  | .Premium => ["elevate", "polish", "distill", "curate"]
  | .Bold => ["unleash", "charge", "push", "own"]

/-- The noun word bank, indexed by audience. -/
def audienceNouns : Audience → List String
  | .General => ["brands", "teams", "products", "stories"]
  | .Motorsport => ["race days", "pit crews", "track moments", "fans"]
  | .Finance => ["portfolios", "finance teams", "banks", "trust"]
  | .Developers => ["builds", "developers", "products", "roadmaps"]

/-- The short audience label used in the meta description. -/
def audienceShort : Audience → String
  | .General => "general audiences"
  | .Motorsport => "motorsport fans"
  | .Finance => "finance teams"
  | .Developers => "developers"

/-- Tone coercion: a recognized tone string is kept, anything else becomes
Professional. -/
def parseTone : Option String → Tone
  | some "Professional" => .Professional
  | some "Playful" => .Playful
  | some "Premium" => .Premium
  | some "Bold" => .Bold
  | _ => .Professional

/-- Audience coercion: a recognized audience string is kept, anything else
becomes General. -/
def parseAudience : Option String → Audience
  | some "General" => .General
  | some "Motorsport fans" => .Motorsport
  | some "Finance/banking" => .Finance
  | some "Developers" => .Developers
  | _ => .General

/-- The index computed by the pick helper: the floor of the produced value
times the list length, with the value written as num over U32. For the list
lengths in use the floating-point product is exact, so the Nat formula is
the floor the source computes. -/
def pickIdx (len num : Nat) : Nat := num * len / U32

/-- The pick helper: index the list at the computed position. -/
def pick (items : List String) (num : Nat) : String :=
  (items[pickIdx items.length num]?).getD ""

/-- One template evaluation of the deterministic route: template i consumes
two generator draws in source order (template four draws the noun before the
modifier) and returns the new generator state with the assembled phrase. -/
def tpl (m v n : List String) (i t : Nat) : Nat × String :=
  let s1 := rngNext t
  let s2 := rngNext s1.1
  match i with
  | 0 => (s2.1, pick m s1.2 ++ " " ++ pick n s2.2)
  | 1 => (s2.1, pick v s1.2 ++ " " ++ pick n s2.2 ++ " faster")
  | 2 => (s2.1, pick m s1.2 ++ " wins for " ++ pick n s2.2)
  | 3 => (s2.1, "Built to " ++ pick v s1.2 ++ " " ++ pick n s2.2)
  | 4 => (s2.1, pick n s1.2 ++ " with " ++ pick m s2.2 ++ " edge")
  | 5 => (s2.1, pick v s1.2 ++ " what " ++ pick n s2.2 ++ " demand")
  | 6 => (s2.1, "A " ++ pick m s1.2 ++ " pulse for " ++ pick n s2.2)
  | _ => (s2.1, pick m s1.2 ++ " momentum for " ++ pick n s2.2)

/-- Insertion into the result set: adding an element already present leaves
the set unchanged, otherwise it is appended, keeping insertion order. -/
def insertCand (acc : List String) (c : String) : List String :=
  if c ∈ acc then acc else acc ++ [c]

/-- Normalize whitespace and trim, applied to each candidate phrase. -/
def collapseTrim (s : String) : String := String.mk (trimL (collapseWs s.data))

/-- The generation loop: while fewer than five distinct taglines are
collected and attempts remain, evaluate the template selected round-robin by
the attempt counter, normalize, clamp to ten words, and insert. The fuel
argument counts the remaining attempts out of thirty. -/
def buildLoop (m v n : List String) : Nat → Nat → Nat → List String → List String
  | 0, _, _, acc => acc
  | fuel + 1, att, t, acc =>
    if 5 ≤ acc.length then acc
    else
      buildLoop m v n fuel (att + 1) (tpl m v n (att % 8) t).1
        (insertCand acc (clampWords (collapseTrim (tpl m v n (att % 8) t).2) 10))

/-- The seed of the deterministic route, hashed from the three inputs joined
by dashes. -/
def seedOf (d : String) (t : Tone) (a : Audience) : Nat :=
  hashSeed (d ++ "-" ++ t.str ++ "-" ++ a.str)

/-- The deterministic tagline builder: run the loop from the hashed seed
with thirty attempts available and keep the first five distinct results. -/
def buildTaglines (d : String) (t : Tone) (a : Audience) : List String :=
  (buildLoop (toneModifiers t) (toneVerbs t) (audienceNouns a) 30 0 (seedOf d t a) []).take 5

/-- Remove a single trailing period, as the anchored regex replacement
does. -/
def stripTrailingPeriod (s : String) : String :=
  match s.data.reverse with
  | '.' :: rest => String.mk rest.reverse
  | _ => s

/-- The meta description builder of the deterministic route: normalize and
trim the description, strip one trailing period, clamp to one hundred
characters, append the tone and audience sentence, and clamp the result to
one hundred sixty characters. -/
def buildMeta (d : String) (t : Tone) (a : Audience) : String :=
  let trimmed := stripTrailingPeriod (String.mk (trimL (collapseWs d.data)))
  let summary := clamp trimmed 100
  clamp (summary ++ ". " ++ t.str ++ " taglines for " ++ audienceShort a ++ ".") 160

/-- Classification of a character as whitespace or a quote, the class the
leading and trailing strips of the sanitizer match. -/
def isQuoteOrWs (c : Char) : Bool :=
  jsWs c || (c.toNat == 34) || (c.toNat == 39)

/-- Classification of the list punctuation that may follow a leading
numeric marker: period, closing parenthesis, dash, colon. -/
def isListPunct (c : Char) : Bool :=
  (c.toNat == 46) || (c.toNat == 41) || (c.toNat == 45) || (c.toNat == 58)

/-- Strip a maximal leading run of whitespace and quote characters, the
first anchored replacement of the sanitizer. -/
def stripLeadQw (l : List Char) : List Char := l.dropWhile isQuoteOrWs

/-- Strip a leading numeric list marker: one or more digits, optional
whitespace, then one or more list punctuation characters; when the pattern
does not match, the input is unchanged. This is the second anchored
replacement of the sanitizer, and the greedy match never backtracks since
the three character classes are disjoint. -/
def stripNumMarker (l : List Char) : List Char :=
  let ds := l.takeWhile Char.isDigit
  if ds.isEmpty then l
  else
    let rest := (l.dropWhile Char.isDigit).dropWhile jsWs
    if (rest.takeWhile isListPunct).isEmpty then l
    else rest.dropWhile isListPunct

/-- Strip a maximal trailing run of whitespace and quote characters, the
third replacement of the sanitizer. -/
def stripTrailQw (l : List Char) : List Char :=
  (l.reverse.dropWhile isQuoteOrWs).reverse

/-- The tagline sanitizer of the external adapter: leading quote and
whitespace strip, numeric marker strip, trailing quote and whitespace
strip, whitespace collapse, trim; then a clamp to ten words. -/
def sanitizeTagline (value : String) : String :=
  let cleaned := trimL (collapseWs (stripTrailQw (stripNumMarker (stripLeadQw value.data))))
  let words := splitSpace cleaned
  if 10 < words.length then String.mk (joinSpace (words.take 10))
  else String.mk cleaned

/-- The JSON rescue of the external adapter: the substring from the first
opening brace to the last closing brace, when both exist in that order. -/
def extractJson (s : String) : Option String :=
  match s.data.findIdx? (fun c => c.toNat == 123),
        s.data.reverse.findIdx? (fun c => c.toNat == 125) with
  | some st, some rev =>
    let en := s.data.length - 1 - rev
    if en ≤ st then none
    else some (String.mk ((s.data.drop st).take (en + 1 - st)))
  | _, _ => none

/-- The result produced by a successful generation. -/
structure GenerationResult where
  taglines : List String
  metaDescription : String
deriving DecidableEq

/-- The deterministic generator: taglines and meta description from the
three validated inputs. -/
def generate (d : String) (t : Tone) (a : Audience) : GenerationResult :=
  ⟨buildTaglines d t a, buildMeta d t a⟩

/-- The request body after JSON parsing: three optional string fields. -/
structure RawPayload where
  description : Option String
  tone : Option String
  audience : Option String
deriving DecidableEq

/-- The body of a route response: either the generation payload or an error
message. -/
inductive RouteBody where
  | ok (taglines : List String) (metaDescription : String)
  | err (message : String)
deriving DecidableEq

/-- A route response: HTTP status code and JSON body. -/
structure RouteResponse where
  status : Nat
  body : RouteBody
deriving DecidableEq

/-- The POST handler of the deterministic route, over an already parsed
body: a missing body is the invalid-JSON rejection, a description shorter
than twenty characters after trimming is rejected, and otherwise the
coerced tone and audience drive the deterministic generator. -/
def detPOST (payload : Option RawPayload) : RouteResponse :=
  match payload with
  | none => ⟨400, .err "Invalid JSON body."⟩
  | some p =>
    if (jsTrimS (p.description.getD "")).length < 20 then
      ⟨400, .err "Description must be at least 20 characters."⟩
    else
      ⟨200, .ok (buildTaglines (p.description.getD "") (parseTone p.tone) (parseAudience p.audience))
        (buildMeta (p.description.getD "") (parseTone p.tone) (parseAudience p.audience))⟩

/-- An error thrown by the provider call: either a provider API error with
its optional HTTP status and optional machine code, or any other thrown
value. -/
inductive CallError where
  | api (status : Option Nat) (code : Option String)
  | other
deriving DecidableEq

/-- The outcome of one provider call: an error, or the optional output
text of the response. -/
def ProviderOutcome := Except CallError (Option String)

/-- A provider oracle: from model name and prompt to an outcome. -/
def Provider := String → String → ProviderOutcome

/-- The condition under which the adapter retries on the fallback model: a
provider API error whose code is model-not-found or whose status is 403. -/
def isFallbackTrigger : CallError → Bool
  | .api status code => (code == some "model_not_found") || (status == some 403)
  | .other => false

/-- The two-step call of the external adapter: call the primary model, and
on a fallback trigger call the fallback model once; any other error
propagates. The second component records the models called, in order. -/
def requestTaglines (provider : Provider) (prompt : String) :
    ProviderOutcome × List String :=
  match provider "gpt-5-mini" prompt with
  | .ok r => (.ok r, ["gpt-5-mini"])
  | .error e =>
    if isFallbackTrigger e then
      (provider "gpt-4o-mini" prompt, ["gpt-5-mini", "gpt-4o-mini"])
    else (.error e, ["gpt-5-mini"])

/-- The provider-error mapping of the catch block, checked in source order:
invalid key, exhausted quota, rate limit, then the generic failure; every
category is surfaced with status 502. -/
def mapError : CallError → RouteResponse
  | .api _ code =>
    if code = some "invalid_api_key" then
      ⟨502, .err "Invalid API key. Please check your key and try again."⟩
    else if code = some "insufficient_quota" then
      ⟨502, .err "OpenAI quota exceeded. Please check your billing."⟩
    else if code = some "rate_limit_exceeded" then
      ⟨502, .err "Too many requests. Please try again in a moment."⟩
    else ⟨502, .err "Generation failed. Please try again in a moment."⟩
  | .other => ⟨502, .err "Generation failed. Please try again in a moment."⟩

/-- The shape of a parsed model output: the taglines array when present and
an array of strings, and the meta description when present and a string.
The JSON parser itself is a platform built-in, passed as an oracle. -/
structure ParsedOutput where
  taglines : Option (List String)
  metaDescription : Option String

/-- A JSON-parse oracle standing for the platform JSON parser. -/
def JsonParse := String → Option ParsedOutput

/-- The prompt the adapter builds from the validated inputs. -/
def buildPrompt (description : String) (t : Tone) (a : Audience) : String :=
  "Description: " ++ jsTrimS description ++ "\nTone: " ++ t.str ++
  "\nAudience: " ++ a.str ++ "\nReturn the JSON only."

/-- The generation stage of the external adapter after validation: call the
provider through the two-step retry, map thrown errors, reject empty
output, parse the raw text directly and through the brace rescue, sanitize
and cap the taglines, trim and clamp the meta description, and reject when
either is empty. The trace of called models is returned alongside. -/
def extGenerate (description : String) (t : Tone) (a : Audience)
    (provider : Provider) (jp : JsonParse) : RouteResponse × List String :=
  let r := requestTaglines provider (buildPrompt description t a)
  match r.1 with
  | .error e => (mapError e, r.2)
  | .ok out =>
    match out with
    | none => (⟨502, .err "We could not generate taglines right now."⟩, r.2)
    | some raw0 =>
      let raw := jsTrimS raw0
      if raw = "" then (⟨502, .err "We could not generate taglines right now."⟩, r.2)
      else
        let parsed :=
          match jp raw with
          | some o => some o
          | none => (extractJson raw).bind jp
        let tl :=
          match parsed with
          | some o =>
            match o.taglines with
            | some arr => ((arr.map sanitizeTagline).filter (fun s => s ≠ "")).take 5
            | none => []
          | none => []
        let md :=
          match parsed with
          | some o =>
            match o.metaDescription with
            | some s => clamp (jsTrimS s) 160
            | none => ""
          | none => ""
        if tl.isEmpty || md = "" then
          (⟨502, .err "We could not generate taglines right now."⟩, r.2)
        else (⟨200, .ok tl md⟩, r.2)

/-- The POST handler of the external route: a missing key is the
configuration failure, then the same body parse and description validation
as the deterministic route, and finally the generation stage. The second
component is the trace of provider calls made. -/
def extPOST (hasKey : Bool) (payload : Option RawPayload)
    (provider : Provider) (jp : JsonParse) : RouteResponse × List String :=
  if hasKey then
    match payload with
    | none => (⟨400, .err "Invalid JSON body."⟩, [])
    | some p =>
      if (jsTrimS (p.description.getD "")).length < 20 then
        (⟨400, .err "Description must be at least 20 characters."⟩, [])
      else
        extGenerate (p.description.getD "") (parseTone p.tone) (parseAudience p.audience)
          provider jp
  else (⟨500, .err "Server configuration issue. Missing API key."⟩, [])

/-- The meta description recipe as the specification words it, for
comparison with the implementation: trim the description, strip a single
trailing period, clamp to one hundred characters, append the tone and
audience sentence, clamp to one hundred sixty characters. Trimming here is
the removal of leading and trailing whitespace only. -/
def metaOfSpec (d : String) (t : Tone) (a : Audience) : String :=
  let trimmed := stripTrailingPeriod (jsTrimS d)
  let summary := clamp trimmed 100
  clamp (summary ++ ". " ++ t.str ++ " taglines for " ++ audienceShort a ++ ".") 160

theorem foldl_toNat_eq_sum (l : List Char) (n : Nat) :
    l.foldl (fun acc c => acc + c.toNat) n = n + (l.map Char.toNat).sum := by
  induction l generalizing n with
  | nil => simp
  | cons c rest ih => simp [List.foldl_cons, ih, Nat.add_assoc]

theorem trimEndL_length_le (l : List Char) : (trimEndL l).length ≤ l.length := by
  unfold trimEndL
  calc (l.reverse.dropWhile jsWs).reverse.length
      = (l.reverse.dropWhile jsWs).length := List.length_reverse _
    _ ≤ l.reverse.length := (List.dropWhile_sublist _).length_le
    _ = l.length := List.length_reverse _

theorem clamp_truncates (s : String) (mx : Nat) (hmx : 3 ≤ mx) (hs : mx < s.length) :
    clamp s mx = String.mk (trimEndL (s.data.take (mx - 3))) ++ "..." ∧
    (String.mk (trimEndL (s.data.take (mx - 3)))).length ≤ mx - 3 := by
  have hnot : ¬ s.length ≤ mx := Nat.not_le.mpr hs
  have hge : ¬ ((mx : Int) - 3 < 0) := by omega
  have htn : ((mx : Int) - 3).toNat = mx - 3 := by omega
  constructor
  · rw [clamp, if_neg hnot, jsSliceTo, if_neg hge, htn]
    have : min (mx - 3) s.data.length = mx - 3 := by
      have : s.data.length = s.length := rfl
      omega
    rw [this]
  · show (trimEndL (s.data.take (mx - 3))).length ≤ mx - 3
    calc (trimEndL (s.data.take (mx - 3))).length
        ≤ (s.data.take (mx - 3)).length := trimEndL_length_le _
      _ ≤ mx - 3 := by rw [List.length_take]; exact min_le_left _ _

theorem clamp_length_le (s : String) (mx : Nat) (hmx : 3 ≤ mx) :
    (clamp s mx).length ≤ mx := by
  by_cases h : s.length ≤ mx
  · rw [clamp, if_pos h]; exact h
  · have hs : mx < s.length := Nat.not_le.mp h
    obtain ⟨heq, hlen⟩ := clamp_truncates s mx hmx hs
    rw [heq, String.length_append]
    have h3 : ("..." : String).length = 3 := rfl
    omega

theorem insertCand_length_le (acc : List String) (c : String) :
    acc.length ≤ (insertCand acc c).length := by
  unfold insertCand
  split
  · exact le_refl _
  · simp

theorem insertCand_pos (acc : List String) (c : String) :
    1 ≤ (insertCand acc c).length := by
  unfold insertCand
  split
  · next h => exact List.length_pos.mpr (List.ne_nil_of_mem h)
  · simp

theorem insertCand_nodup (acc : List String) (c : String) (h : acc.Nodup) :
    (insertCand acc c).Nodup := by
  unfold insertCand
  split
  · exact h
  · next hc =>
    refine List.nodup_append.mpr ⟨h, List.nodup_singleton c, ?_⟩
    intro x hx hxc
    rw [List.mem_singleton] at hxc
    subst hxc
    exact hc hx

theorem buildLoop_length_le (m v n : List String) :
    ∀ (fuel att t : Nat) (acc : List String),
      acc.length ≤ (buildLoop m v n fuel att t acc).length := by
  intro fuel
  induction fuel with
  | zero => intro att t acc; exact le_refl _
  | succ k ih =>
    intro att t acc
    simp only [buildLoop]
    split
    · exact le_refl _
    · exact le_trans (insertCand_length_le acc _) (ih _ _ _)

theorem buildLoop_pos (m v n : List String) (fuel att t : Nat) (acc : List String) :
    1 ≤ (buildLoop m v n (fuel + 1) att t acc).length := by
  simp only [buildLoop]
  split
  · next h5 => omega
  · exact le_trans (insertCand_pos _ _) (buildLoop_length_le _ _ _ _ _ _ _)

theorem buildLoop_nodup (m v n : List String) :
    ∀ (fuel att t : Nat) (acc : List String), acc.Nodup →
      (buildLoop m v n fuel att t acc).Nodup := by
  intro fuel
  induction fuel with
  | zero => intro att t acc h; exact h
  | succ k ih =>
    intro att t acc h
    simp only [buildLoop]
    split
    · exact h
    · exact ih _ _ _ (insertCand_nodup _ _ h)

/-- C1: for every valid input triple, running the deterministic generator
twice with identical inputs yields identical results, the same tagline list
in the same order and the same meta description; the generator is embedded
as a pure function of the three inputs, with the seeded stream derived only
from the hashed inputs and no entropy parameter anywhere. -/
theorem c1_deterministic_generator (d1 d2 : String) (t1 t2 : Tone) (a1 a2 : Audience)
    (h : d1 = d2 ∧ t1 = t2 ∧ a1 = a2) :
    (generate d1 t1 a1).taglines = (generate d2 t2 a2).taglines ∧
    (generate d1 t1 a1).metaDescription = (generate d2 t2 a2).metaDescription := by
  obtain ⟨h1, h2, h3⟩ := h
  subst h1; subst h2; subst h3
  exact ⟨rfl, rfl⟩

theorem c1_deterministic_generator_witness :
    (generate "A racing-inspired energy drink for weekend drivers." Tone.Bold Audience.Motorsport).taglines =
      (generate "A racing-inspired energy drink for weekend drivers." Tone.Bold Audience.Motorsport).taglines ∧
    (generate "A racing-inspired energy drink for weekend drivers." Tone.Bold Audience.Motorsport).metaDescription =
      (generate "A racing-inspired energy drink for weekend drivers." Tone.Bold Audience.Motorsport).metaDescription :=
  c1_deterministic_generator _ _ _ _ _ _ ⟨rfl, rfl, rfl⟩

/-- C2 counterexample: the claim fails as stated. With max below three the
clamp can return a string longer than max, since the slice end index wraps
to count from the end of the string: clamping five letters to zero yields a
five-character string. And when the slice ends in whitespace the trailing
trim makes the prefix before the ellipsis shorter than max minus three:
clamping the seven-character input to six keeps a two-character prefix. -/
theorem c2_clamp_counterexample :
    clamp "aaaaa" 0 = "aa..." ∧ ¬ (clamp "aaaaa" 0).length ≤ 0 ∧
    6 < ("ab cdef" : String).length ∧ clamp "ab cdef" 6 = "ab" ++ "..." ∧
    ¬ ("ab" : String).length = 6 - 3 := by decide

/-- C2 amended: for every string and every max of at least three, the clamp
returns a string of length at most max; and whenever the input is longer
than max, the result is a prefix followed by the literal ellipsis marker,
where the prefix is the truncated slice with trailing whitespace removed
and so has length at most max minus three, with equality exactly when no
trailing whitespace was trimmed. -/
theorem c2_clamp_amended (s : String) (mx : Nat) (hmx : 3 ≤ mx) :
    (clamp s mx).length ≤ mx ∧
    (mx < s.length → ∃ p : String, clamp s mx = p ++ "..." ∧ p.length ≤ mx - 3) := by
  refine ⟨clamp_length_le s mx hmx, fun hs => ?_⟩
  obtain ⟨heq, hlen⟩ := clamp_truncates s mx hmx hs
  exact ⟨String.mk (trimEndL (s.data.take (mx - 3))), heq, hlen⟩

theorem c2_clamp_amended_witness :
    (clamp "ab cdef" 6).length ≤ 6 ∧
    (6 < ("ab cdef" : String).length →
      ∃ p : String, clamp "ab cdef" 6 = p ++ "..." ∧ p.length ≤ 6 - 3) :=
  c2_clamp_amended "ab cdef" 6 (by decide)

/-- C3 counterexample: the sanitizer does not produce the claimed string on
the quoted, numbered raw tagline: the leading double quote survives,
because the leading quote strip runs before the numeric marker strip and
the numbering precedes the quote. -/
theorem c3_sanitize_counterexample :
    sanitizeTagline "1) \"Ignite every lap, every time!\"  " ≠
      "Ignite every lap, every time!" := by decide

/-- C3 amended: applying the sanitizer to the raw model tagline consisting
of a numeric marker, a double-quoted phrase and two trailing spaces removes
the numbering, the trailing quote and the surrounding whitespace, but keeps
the leading double quote, which the first strip pass could not reach since
the numbering still preceded it. -/
theorem c3_sanitize_amended :
    sanitizeTagline "1) \"Ignite every lap, every time!\"  " =
      "\"Ignite every lap, every time!" := by decide

/-- C5 counterexample: the meta description of the deterministic generator
is not the result of the claimed recipe, because the implementation also
collapses internal whitespace runs before building the summary, which the
recipe of the claim omits: a description with a double space inside
disagrees. -/
theorem c5_meta_counterexample :
    buildMeta "Fast  cars" Tone.Professional Audience.General ≠
      metaOfSpec "Fast  cars" Tone.Professional Audience.General := by decide

/-- C5 amended: for every input triple, the meta description equals the
result of collapsing whitespace runs to single spaces and trimming the
description, stripping a single trailing period, clamping to one hundred
characters, appending the tone and audience sentence, then clamping the
whole string to one hundred sixty characters; in particular its length
never exceeds one hundred sixty characters. -/
theorem c5_meta_amended (d : String) (t : Tone) (a : Audience) :
    buildMeta d t a =
      clamp (clamp (stripTrailingPeriod (String.mk (trimL (collapseWs d.data)))) 100 ++
        ". " ++ t.str ++ " taglines for " ++ audienceShort a ++ ".") 160 ∧
    (buildMeta d t a).length ≤ 160 := by
  refine ⟨rfl, ?_⟩
  show (clamp _ 160).length ≤ 160
  exact clamp_length_le _ _ (by norm_num)

/-- C6: for every input triple, the seed of the deterministic generator is
the sum of the character codes of the description, tone and audience joined
by dashes, except that a zero sum is replaced by one. -/
theorem c6_seed_formula (d : String) (t : Tone) (a : Audience) :
    seedOf d t a =
      (if ((d ++ "-" ++ t.str ++ "-" ++ a.str).data.map Char.toNat).sum = 0 then 1
       else ((d ++ "-" ++ t.str ++ "-" ++ a.str).data.map Char.toNat).sum) := by
  unfold seedOf hashSeed
  rw [foldl_toNat_eq_sum]
  simp

/-- C4: for every input triple, the deterministic generator returns between
one and five taglines and the list contains no duplicate entries. -/
theorem c4_tagline_list (d : String) (t : Tone) (a : Audience) :
    1 ≤ (buildTaglines d t a).length ∧ (buildTaglines d t a).length ≤ 5 ∧
    (buildTaglines d t a).Nodup := by
  unfold buildTaglines
  refine ⟨?_, ?_, ?_⟩
  · rw [List.length_take]
    refine le_min (by norm_num) ?_
    exact buildLoop_pos _ _ _ 29 0 _ []
  · rw [List.length_take]
    exact min_le_left _ _
  · exact List.Nodup.sublist (List.take_sublist _ _)
      (buildLoop_nodup _ _ _ _ _ _ _ List.nodup_nil)

theorem xor_mod_lt (a b : Nat) (ha : a < U32) : a ^^^ b % U32 < U32 := by
  have h1 : b % U32 < U32 := Nat.mod_lt _ (by norm_num [U32])
  have hU : (U32 : Nat) = 2 ^ 32 := by norm_num [U32]
  rw [hU] at ha h1 ⊢
  exact Nat.xor_lt_two_pow ha h1

theorem xor_shift_lt (a k : Nat) (ha : a < U32) : a ^^^ a >>> k < U32 := by
  have h1 : a >>> k < U32 := by
    rw [Nat.shiftRight_eq_div_pow]
    exact lt_of_le_of_lt (Nat.div_le_self _ _) ha
  have hU : (U32 : Nat) = 2 ^ 32 := by norm_num [U32]
  rw [hU] at ha h1 ⊢
  exact Nat.xor_lt_two_pow ha h1

theorem rngMix_lt (t : Nat) : rngMix t < U32 := by
  simp only [rngMix]
  apply xor_shift_lt
  apply xor_mod_lt
  exact Nat.mod_lt _ (by norm_num [U32])

theorem pickIdx_lt (len num : Nat) (hlen : 0 < len) (hnum : num < U32) :
    pickIdx len num < len := by
  unfold pickIdx
  rw [Nat.div_lt_iff_lt_mul (by norm_num [U32] : 0 < U32)]
  calc num * len < U32 * len := mul_lt_mul_of_pos_right hnum hlen
    _ = len * U32 := Nat.mul_comm _ _

theorem pick_mem (items : List String) (num : Nat) (h : items ≠ []) (hnum : num < U32) :
    pick items num ∈ items := by
  unfold pick
  have hidx : pickIdx items.length num < items.length :=
    pickIdx_lt _ _ (List.length_pos.mpr h) hnum
  rw [List.getElem?_eq_getElem hidx]
  exact List.getElem_mem hidx

/-- C10: every value produced by the seeded generator lies in the unit
half-open interval, here stated as the numerator over two to the
thirty-second being below the modulus; so the pick helper applied to any
non-empty list computes an in-bounds index and returns an element of the
list; and all word banks of the pipeline are non-empty. -/
theorem c10_rng_in_bounds (t : Nat) (items : List String) (h : items ≠ []) :
    rngMix t < U32 ∧
    pickIdx items.length (rngMix t) < items.length ∧
    pick items (rngMix t) ∈ items ∧
    (∀ tn : Tone, toneModifiers tn ≠ [] ∧ toneVerbs tn ≠ []) ∧
    (∀ au : Audience, audienceNouns au ≠ []) := by
  refine ⟨rngMix_lt t, pickIdx_lt _ _ (List.length_pos.mpr h) (rngMix_lt t),
    pick_mem _ _ h (rngMix_lt t), ?_, ?_⟩
  · intro tn; cases tn <;> simp [toneModifiers, toneVerbs]
  · intro au; cases au <;> simp [audienceNouns]

theorem c10_rng_in_bounds_witness :
    rngMix 0 < U32 ∧
    pickIdx (["solo"] : List String).length (rngMix 0) < (["solo"] : List String).length ∧
    pick ["solo"] (rngMix 0) ∈ (["solo"] : List String) ∧
    (∀ tn : Tone, toneModifiers tn ≠ [] ∧ toneVerbs tn ≠ []) ∧
    (∀ au : Audience, audienceNouns au ≠ []) :=
  c10_rng_in_bounds 0 ["solo"] (by decide)

/-- C7: for every request whose description is shorter than twenty
characters after trimming, with any tone and audience fields, both route
handlers reject with status four hundred and the descriptive length
message; on the external route no provider call is made, witnessed by the
empty call trace, for any provider and parser oracles. -/
theorem c7_short_description (p : RawPayload) (provider : Provider) (jp : JsonParse)
    (h : (jsTrimS (p.description.getD "")).length < 20) :
    detPOST (some p) = ⟨400, .err "Description must be at least 20 characters."⟩ ∧
    extPOST true (some p) provider jp =
      (⟨400, .err "Description must be at least 20 characters."⟩, []) := by
  refine ⟨?_, ?_⟩
  · simp [detPOST, h]
  · simp [extPOST, h]

theorem c7_short_description_witness :
    detPOST (some ⟨some "Short", none, none⟩) =
      ⟨400, .err "Description must be at least 20 characters."⟩ ∧
    extPOST true (some ⟨some "Short", none, none⟩)
        (fun _ _ => Except.error CallError.other) (fun _ => none) =
      (⟨400, .err "Description must be at least 20 characters."⟩, []) :=
  c7_short_description ⟨some "Short", none, none⟩
    (fun _ _ => Except.error CallError.other) (fun _ => none) (by decide)

theorem isFallbackTrigger_iff (e : CallError) :
    isFallbackTrigger e = true ↔
      ∃ st cd, e = CallError.api st cd ∧
        (cd = some "model_not_found" ∨ st = some 403) := by
  cases e with
  | api st cd =>
    simp only [isFallbackTrigger, Bool.or_eq_true, beq_iff_eq, CallError.api.injEq]
    constructor
    · intro hor; exact ⟨st, cd, ⟨rfl, rfl⟩, hor⟩
    · rintro ⟨st1, cd1, ⟨rfl, rfl⟩, hor⟩; exact hor
  | other => simp [isFallbackTrigger]

/-- C8: the external adapter always calls the primary model first; the
fallback model is called, exactly once, if and only if the primary call
fails with a provider error whose code marks the model as not found or
whose status is four hundred three; and any other error from the primary
call is returned unchanged with no fallback call in the trace. -/
theorem c8_fallback_policy (provider : Provider) (prompt : String) :
    ((requestTaglines provider prompt).2 = ["gpt-5-mini", "gpt-4o-mini"] ↔
      (∃ st cd, provider "gpt-5-mini" prompt = .error (.api st cd) ∧
        (cd = some "model_not_found" ∨ st = some 403))) ∧
    ((requestTaglines provider prompt).2 = ["gpt-5-mini", "gpt-4o-mini"] →
      requestTaglines provider prompt =
        (provider "gpt-4o-mini" prompt, ["gpt-5-mini", "gpt-4o-mini"])) ∧
    (∀ e, provider "gpt-5-mini" prompt = .error e →
      ¬ (∃ st cd, e = CallError.api st cd ∧
          (cd = some "model_not_found" ∨ st = some 403)) →
      requestTaglines provider prompt = (Except.error e, ["gpt-5-mini"])) := by
  refine ⟨?_, ?_, ?_⟩
  · constructor
    · intro hlist
      cases hp : provider "gpt-5-mini" prompt with
      | ok r => simp only [requestTaglines, hp] at hlist; simp at hlist
      | error e =>
        simp only [requestTaglines, hp] at hlist
        by_cases hT : isFallbackTrigger e = true
        · rcases (isFallbackTrigger_iff e).mp hT with ⟨st, cd, rfl, hor⟩
          exact ⟨st, cd, rfl, hor⟩
        · rw [if_neg hT] at hlist; simp at hlist
    · rintro ⟨st, cd, hp, hor⟩
      simp only [requestTaglines, hp]
      rw [if_pos ((isFallbackTrigger_iff _).mpr ⟨st, cd, rfl, hor⟩)]
  · intro hlist
    cases hp : provider "gpt-5-mini" prompt with
    | ok r => simp only [requestTaglines, hp] at hlist; simp at hlist
    | error e =>
      simp only [requestTaglines, hp] at hlist ⊢
      by_cases hT : isFallbackTrigger e = true
      · rw [if_pos hT]
      · rw [if_neg hT] at hlist; simp at hlist
  · intro e hp hno
    have hT : isFallbackTrigger e = false := by
      cases hTb : isFallbackTrigger e with
      | true => exact absurd ((isFallbackTrigger_iff e).mp hTb) hno
      | false => rfl
    simp only [requestTaglines, hp, hT]
    simp

theorem requestTaglines_const_error (e : CallError) (prompt : String) :
    (requestTaglines (fun _ _ => Except.error e) prompt).1 = .error e := by
  simp only [requestTaglines]
  split
  · rfl
  · rfl

theorem extGenerate_error (d : String) (t : Tone) (a : Audience) (provider : Provider)
    (jp : JsonParse) (e : CallError)
    (he : (requestTaglines provider (buildPrompt d t a)).1 = .error e) :
    (extGenerate d t a provider jp).1 = mapError e := by
  simp only [extGenerate]
  split
  · next e' heq => rw [heq] at he; cases he; rfl
  · next out heq => rw [heq] at he; cases he

/-- C9: a provider error carrying the rate-limit code is surfaced by the
external adapter with the throttling-specific message, which differs from
the generic generation-failure message, while its status five hundred two
is the same status every other provider-error category receives. -/
theorem c9_rate_limit_mapping (st : Option Nat) (p : RawPayload) (jp : JsonParse)
    (h : ¬ (jsTrimS (p.description.getD "")).length < 20) :
    (extPOST true (some p)
        (fun _ _ => Except.error (CallError.api st (some "rate_limit_exceeded"))) jp).1 =
      ⟨502, .err "Too many requests. Please try again in a moment."⟩ ∧
    (⟨502, RouteBody.err "Too many requests. Please try again in a moment."⟩ : RouteResponse) ≠
      ⟨502, .err "Generation failed. Please try again in a moment."⟩ ∧
    (mapError (.api st (some "rate_limit_exceeded"))).status = 502 ∧
    (mapError (.api st (some "invalid_api_key"))).status = 502 ∧
    (mapError (.api st (some "insufficient_quota"))).status = 502 ∧
    (mapError CallError.other).status = 502 := by
  refine ⟨?_, by decide, by simp [mapError], by simp [mapError], by simp [mapError],
    by simp [mapError]⟩
  simp only [extPOST, if_true]
  rw [if_neg h]
  rw [extGenerate_error _ _ _ _ _ _ (requestTaglines_const_error _ _)]
  simp [mapError]

theorem c9_rate_limit_mapping_witness :
    (extPOST true (some ⟨some "A sufficiently long description here.", none, none⟩)
        (fun _ _ => Except.error (CallError.api (some 429) (some "rate_limit_exceeded")))
        (fun _ => none)).1 =
      ⟨502, .err "Too many requests. Please try again in a moment."⟩ ∧
    (⟨502, RouteBody.err "Too many requests. Please try again in a moment."⟩ : RouteResponse) ≠
      ⟨502, .err "Generation failed. Please try again in a moment."⟩ ∧
    (mapError (.api (some 429) (some "rate_limit_exceeded"))).status = 502 ∧
    (mapError (.api (some 429) (some "invalid_api_key"))).status = 502 ∧
    (mapError (.api (some 429) (some "insufficient_quota"))).status = 502 ∧
    (mapError CallError.other).status = 502 :=
  c9_rate_limit_mapping (some 429) ⟨some "A sufficiently long description here.", none, none⟩
    (fun _ => none) (by decide)

end TG
